import Mathlib

/-!
Verification of the Project/Task tracker core (validation + business-rule
layer).  The definitions below are a shallow embedding of the Python
sources: `app/core/validation.py`, `app/core/models.py`,
`app/storage/in_memory.py`, `app/services/todo_service.py`, and (for the
database-backed variant) `app/repositories/project_repository.py`.

Python strings are modelled by Lean `String`; the handful of string
operations the code uses (`strip`, `split`, `lower`, `strptime`) are
implemented as structurally-recursive functions over `List Char` so that
every definition evaluates inside the kernel.
-/

namespace Todo

/-! ### Python string primitives -/

/-- The ASCII whitespace characters recognised by Python's `str.strip()` /
`str.split()` (space, tab, newline, carriage return, vertical tab, form feed). -/
def isSpace (c : Char) : Bool :=
  c.toNat = 32 || c.toNat = 9 || c.toNat = 10 || c.toNat = 13 ||
  c.toNat = 11 || c.toNat = 12

/-- `str.strip()`: drop leading and trailing whitespace. -/
def pyStrip (l : List Char) : List Char :=
  ((l.dropWhile isSpace).reverse.dropWhile isSpace).reverse

/-- ASCII lower-casing, as `str.lower()` acts on the status tokens used here. -/
def pyLower (c : Char) : Char :=
  if 65 ≤ c.toNat ∧ c.toNat ≤ 90 then Char.ofNat (c.toNat + 32) else c

/-- Helper for `wordCount`: count maximal runs of non-whitespace characters.
The flag records whether we are currently inside a word. -/
def countWordsAux : Bool → List Char → Nat
  | _, [] => 0
  | inWord, c :: cs =>
    if isSpace c then countWordsAux false cs
    else (if inWord then 0 else 1) + countWordsAux true cs

/-- `len(str(s).strip().split())`: the number of whitespace-delimited words.
(The `strip` is immaterial to the count, as in Python.) -/
def wordCount (s : String) : Nat :=
  countWordsAux false (pyStrip s.data)

/-- `not s or str(s).strip() == ""`: true when the string has no
non-whitespace character. -/
def isBlank (s : String) : Bool :=
  s.data.all isSpace

/-! ### Dates: `datetime.strptime(s, "%Y-%m-%d").date()` and `date` ordering -/

structure Date where
  year : Nat
  month : Nat
  day : Nat
deriving DecidableEq, Repr

/-- Strict ordering of calendar dates (`date.__lt__`). -/
def dateLt (a b : Date) : Bool :=
  a.year < b.year ||
    (a.year = b.year &&
      (a.month < b.month || (a.month = b.month && a.day < b.day)))

/-- Length of a month, with the Gregorian leap-year rule used by
`datetime.date`. -/
def daysInMonth (y m : Nat) : Nat :=
  if m = 2 then
    if y % 4 = 0 && (y % 100 ≠ 0 || y % 400 = 0) then 29 else 28
  else if m = 4 ∨ m = 6 ∨ m = 9 ∨ m = 11 then 30
  else 31

/-- Split a character list on the literal dash, keeping empty components
(`"a--b"` gives three components). -/
def splitOnDash : List Char → List (List Char)
  | [] => [[]]
  | c :: cs =>
    if c = '-' then [] :: splitOnDash cs
    else
      match splitOnDash cs with
      | [] => [[c]]
      | w :: ws => (c :: w) :: ws

def isDigits (l : List Char) : Bool :=
  !l.isEmpty && l.all (fun c => 48 ≤ c.toNat && c.toNat ≤ 57)

def digitsToNat (l : List Char) : Nat :=
  l.foldl (fun acc c => acc * 10 + (c.toNat - 48)) 0

/-- `datetime.strptime(s, "%Y-%m-%d").date()`, made total: `%Y` matches
exactly four digits, `%m` and `%d` one or two digits, and the constructed
`date` must be a real calendar date with a positive year; every failure
(`ValueError` in Python) is `none`. -/
def parseDate (l : List Char) : Option Date :=
  match splitOnDash l with
  | [ys, ms, ds] =>
    if ys.length = 4 && isDigits ys &&
       isDigits ms && ms.length ≤ 2 &&
       isDigits ds && ds.length ≤ 2 then
      let y := digitsToNat ys
      let m := digitsToNat ms
      let d := digitsToNat ds
      if 1 ≤ y && 1 ≤ m && m ≤ 12 && 1 ≤ d && d ≤ daysInMonth y m then
        some ⟨y, m, d⟩
      else none
    else none
  | _ => none

/-! ### Error taxonomy (`app/core/exceptions.py`) -/

inductive Err where
  | validation
  | duplicateProject
  | duplicateTask
  | projectLimit
  | taskLimit
  | projectNotFound
  | taskNotFound
deriving DecidableEq, Repr

deriving instance DecidableEq for Except

/-! ### Domain models (`app/core/models.py`)

The Python `Task` carries a live back-pointer to its owning `Project`;
following the design notes it is modelled as containment only (tasks live
inside their project's list), which preserves the semantics of every
operation below. -/

structure Task where
  name : String
  description : String
  status : String
  deadline : Option String
deriving DecidableEq, Repr

structure Project where
  name : String
  description : String
  tasks : List Task
deriving DecidableEq, Repr

structure Storage where
  projects : List Project
deriving DecidableEq, Repr

/-! ### Validators (`app/core/validation.py`) -/

def validate_project_name (name : String) : Except Err Unit :=
  if isBlank name then .error .validation
  else if wordCount name > 30 then .error .validation
  else .ok ()

def validate_project_description (description : String) : Except Err Unit :=
  if wordCount description > 150 then .error .validation else .ok ()

def validate_unique_project_name (name : String) (existing : List Project) :
    Except Err Unit :=
  if existing.any (fun p => p.name = name) then .error .duplicateProject
  else .ok ()

def validate_task_name (name : String) : Except Err Unit :=
  if isBlank name then .error .validation
  else if wordCount name > 30 then .error .validation
  else .ok ()

def validate_task_description (description : String) : Except Err Unit :=
  if wordCount description > 150 then .error .validation else .ok ()

/-- Returns the normalized status: blank defaults to `"todo"`, otherwise
the trimmed lower-cased token must be one of `todo`, `doing`, `done`. -/
def validate_task_status (status : String) : Except Err String :=
  if isBlank status then .ok "todo"
  else
    let normalized := String.mk ((pyStrip status.data).map pyLower)
    if normalized = "todo" ∨ normalized = "doing" ∨ normalized = "done" then
      .ok normalized
    else .error .validation

/-- Validates (but does not return) the deadline; `today` stands for
`date.today()`. -/
def validate_task_deadline (today : Date) (deadline : Option String) :
    Except Err Unit :=
  match deadline with
  | none => .ok ()
  | some s =>
    if isBlank s then .ok ()
    else
      match parseDate (pyStrip s.data) with
      | none => .error .validation
      | some parsed =>
        if dateLt parsed today then .error .validation else .ok ()

def validate_unique_task_name (name : String) (existing : List Task) :
    Except Err Unit :=
  if existing.any (fun t => t.name = name) then .error .duplicateTask
  else .ok ()

/-! ### In-memory storage (`app/storage/in_memory.py`)

The store is index-addressed.  Python indices arrive as arbitrary `int`s,
so refs are modelled by `Int`.  A raised exception is an `Except.error`;
since every operation returns the whole new store on success, an error
leaves the store unchanged by construction, exactly as the Python code
raises before any mutation. -/

/-- `InMemoryStorage.add_project`: field validation, then uniqueness, then
the capacity check, then append. -/
def add_project (maxProjects : Nat) (s : Storage) (project : Project) :
    Except Err Storage :=
  match validate_project_name project.name with
  | .error e => .error e
  | .ok _ =>
  match validate_project_description project.description with
  | .error e => .error e
  | .ok _ =>
  match validate_unique_project_name project.name s.projects with
  | .error e => .error e
  | .ok _ =>
  if s.projects.length ≥ maxProjects then .error .projectLimit
  else .ok ⟨s.projects ++ [project]⟩

/-- `InMemoryStorage.list_projects`. -/
def list_projects (s : Storage) : List Project :=
  s.projects

/-- `InMemoryStorage.get_project`: total, returns `None` outside
`0 ≤ index < len(self.projects)`. -/
def get_project (s : Storage) (index : Int) : Option Project :=
  if 0 ≤ index ∧ index < (s.projects.length : Int) then
    s.projects.get? index.toNat
  else none

/-- `InMemoryStorage.delete_project`: clears the project's tasks and
removes it from the list. -/
def delete_project (s : Storage) (index : Int) : Except Err Storage :=
  match get_project s index with
  | none => .error .projectNotFound
  | some _ => .ok ⟨s.projects.eraseIdx index.toNat⟩

/-- `InMemoryStorage.add_task`: project lookup, field validation and
status normalization (`task.status = validate_task_status(task.status)`
mutates the task, so the stored and returned task carries the normalized
status), uniqueness among siblings, then the capacity check, then append.
Returns the (mutated) task together with the new store. -/
def add_task (today : Date) (maxTasks : Nat) (s : Storage) (projectIndex : Int)
    (task : Task) : Except Err (Task × Storage) :=
  match get_project s projectIndex with
  | none => .error .projectNotFound
  | some project =>
  match validate_task_name task.name with
  | .error e => .error e
  | .ok _ =>
  match validate_task_description task.description with
  | .error e => .error e
  | .ok _ =>
  match validate_task_status task.status with
  | .error e => .error e
  | .ok st =>
  match validate_task_deadline today task.deadline with
  | .error e => .error e
  | .ok _ =>
  match validate_unique_task_name task.name project.tasks with
  | .error e => .error e
  | .ok _ =>
  if project.tasks.length ≥ maxTasks then .error .taskLimit
  else
    let stored := { task with status := st }
    .ok (stored,
      ⟨s.projects.set projectIndex.toNat
        { project with tasks := project.tasks ++ [stored] }⟩)

/-- `InMemoryStorage.list_tasks`. -/
def list_tasks (s : Storage) (projectIndex : Int) : Except Err (List Task) :=
  match get_project s projectIndex with
  | none => .error .projectNotFound
  | some project => .ok project.tasks

/-- `InMemoryStorage.get_task`: `None` when the project is absent or the
task index is outside `0 ≤ j < len(project.tasks)`. -/
def get_task (s : Storage) (projectIndex taskIndex : Int) : Option Task :=
  match get_project s projectIndex with
  | none => none
  | some project =>
    if 0 ≤ taskIndex ∧ taskIndex < (project.tasks.length : Int) then
      project.tasks.get? taskIndex.toNat
    else none

/-- `InMemoryStorage.delete_task`. -/
def delete_task (s : Storage) (projectIndex taskIndex : Int) :
    Except Err Storage :=
  match get_project s projectIndex with
  | none => .error .projectNotFound
  | some project =>
  match get_task s projectIndex taskIndex with
  | none => .error .taskNotFound
  | some _ =>
    .ok ⟨s.projects.set projectIndex.toNat
      { project with tasks := project.tasks.eraseIdx taskIndex.toNat }⟩

/-! ### Todo service (`app/services/todo_service.py`)

The service operations mirror the Python methods.  Methods that in Python
return the (aliased, possibly mutated) entity return here the entity value
paired with the new store. -/

namespace TodoService

/-- `TodoService.create_project`: builds `Project(name, description)` (an
empty task list by the dataclass default) and delegates to the store. -/
def create_project (maxProjects : Nat) (s : Storage) (name description : String) :
    Except Err (Project × Storage) :=
  match add_project maxProjects s ⟨name, description, []⟩ with
  | .error e => .error e
  | .ok s' => .ok (⟨name, description, []⟩, s')

/-- `TodoService.edit_project`: fetches the project
(`ProjectNotFoundError` when absent) and then `Project.edit_project`
assigns the new name and description directly — no validation and no
uniqueness check is performed. -/
def edit_project (s : Storage) (index : Int) (newName newDescription : String) :
    Except Err (Project × Storage) :=
  match get_project s index with
  | none => .error .projectNotFound
  | some project =>
    let updated := { project with name := newName, description := newDescription }
    .ok (updated, ⟨s.projects.set index.toNat updated⟩)

/-- `TodoService.delete_project`: delegates to the store. -/
def delete_project_service (s : Storage) (index : Int) : Except Err Storage :=
  delete_project s index

/-- `TodoService.create_task`: checks the project exists
(`ProjectNotFoundError`), builds the raw task, delegates to
`InMemoryStorage.add_task` and returns the task the store mutated. -/
def create_task (today : Date) (maxTasks : Nat) (s : Storage)
    (projectIndex : Int) (name description status : String)
    (deadline : Option String) : Except Err (Task × Storage) :=
  match get_project s projectIndex with
  | none => .error .projectNotFound
  | some _ => add_task today maxTasks s projectIndex ⟨name, description, status, deadline⟩

/-- `TodoService.list_tasks`: delegates to the store. -/
def list_tasks_service (s : Storage) (projectIndex : Int) :
    Except Err (List Task) :=
  list_tasks s projectIndex

/-- `TodoService.edit_task`: `_get_task_or_raise` turns an absent lookup
(absent task *or* absent project) into `TaskNotFoundError`; then
`Task.edit_task` assigns all four fields directly — no validation, no
normalization, no duplicate check.  The inner project branch is
unreachable because `get_task` only succeeds when the project exists. -/
def edit_task (s : Storage) (projectIndex taskIndex : Int)
    (newName newDescription newStatus : String) (newDeadline : Option String) :
    Except Err (Task × Storage) :=
  match get_task s projectIndex taskIndex with
  | none => .error .taskNotFound
  | some _ =>
  match get_project s projectIndex with
  | none => .error .taskNotFound
  | some project =>
    let updated : Task := ⟨newName, newDescription, newStatus, newDeadline⟩
    .ok (updated,
      ⟨s.projects.set projectIndex.toNat
        { project with tasks := project.tasks.set taskIndex.toNat updated }⟩)

/-- `TodoService.edit_task_status`: `_get_task_or_raise`, then
`Task.edit_task_status` assigns the raw status — no validation and no
normalization; name, description and deadline are untouched. -/
def edit_task_status (s : Storage) (projectIndex taskIndex : Int)
    (newStatus : String) : Except Err (Task × Storage) :=
  match get_task s projectIndex taskIndex with
  | none => .error .taskNotFound
  | some task =>
  match get_project s projectIndex with
  | none => .error .taskNotFound
  | some project =>
    let updated := { task with status := newStatus }
    .ok (updated,
      ⟨s.projects.set projectIndex.toNat
        { project with tasks := project.tasks.set taskIndex.toNat updated }⟩)

/-- `TodoService.delete_task`: delegates to the store. -/
def delete_task_service (s : Storage) (projectIndex taskIndex : Int) :
    Except Err Storage :=
  delete_task s projectIndex taskIndex

end TodoService

/-! ### Database-backed repository variant
(`app/repositories/project_repository.py`)

Only `ProjectRepository.create` is needed here; the database table is
modelled as the list of project rows and `select(func.count(...))` as its
length.  `newId` stands for the autoincremented primary key. -/

structure DBProject where
  id : Nat
  name : String
  description : String
deriving DecidableEq, Repr

/-- `ProjectRepository.exists_by_name` (without `exclude_id`). -/
def exists_by_name (db : List DBProject) (name : String) : Bool :=
  db.any (fun p => p.name = name)

/-- `ProjectRepository.create`: field validation, then the capacity check,
then the uniqueness check, then insert. -/
def repo_create_project (maxProjects : Nat) (db : List DBProject) (newId : Nat)
    (name description : String) : Except Err (DBProject × List DBProject) :=
  match validate_project_name name with
  | .error e => .error e
  | .ok _ =>
  match validate_project_description description with
  | .error e => .error e
  | .ok _ =>
  if db.length ≥ maxProjects then .error .projectLimit
  else if exists_by_name db name then .error .duplicateProject
  else .ok (⟨newId, name, description⟩, db ++ [⟨newId, name, description⟩])

/-! ### Helper lemmas -/

/-- A string with no non-whitespace character has zero words. -/
theorem wordCount_eq_zero_of_isBlank {s : String} (h : isBlank s = true) :
    wordCount s = 0 := by
  unfold wordCount pyStrip
  have hd : s.data.dropWhile isSpace = [] := by
    rw [List.dropWhile_eq_nil_iff]
    intro x hx
    exact List.all_eq_true.mp h x hx
  rw [hd]
  simp [countWordsAux]

/-- A string with at least one word is not blank. -/
theorem isBlank_eq_false_of_wordCount_pos {s : String} (h : 1 ≤ wordCount s) :
    isBlank s = false := by
  cases hb : isBlank s
  · rfl
  · have := wordCount_eq_zero_of_isBlank hb
    omega

/-- `get_project` returns `None` exactly outside the valid index range. -/
theorem get_project_eq_none {s : Storage} {i : Int} :
    get_project s i = none ↔ ¬ (0 ≤ i ∧ i < (s.projects.length : Int)) := by
  unfold get_project
  split
  next h =>
    have hlt : i.toNat < s.projects.length := by omega
    simp only [List.get?_eq_getElem?, List.getElem?_eq_none_iff]
    constructor
    · intro hn; omega
    · intro hn; exact absurd h hn
  next h => simp [h]

/-- A successful `get_project` lookup gives the bounds and the stored entry. -/
theorem get_project_eq_some {s : Storage} {i : Int} {p : Project}
    (h : get_project s i = some p) :
    0 ≤ i ∧ i < (s.projects.length : Int) ∧ s.projects.get? i.toNat = some p := by
  unfold get_project at h
  split at h
  next hc => exact ⟨hc.1, hc.2, h⟩
  next => cases h

/-- `list_tasks` raises `ProjectNotFoundError` exactly when the project
lookup is empty. -/
theorem list_tasks_error_iff (s : Storage) (j : Int) :
    list_tasks s j = .error .projectNotFound ↔ get_project s j = none := by
  unfold list_tasks
  cases h : get_project s j <;> simp

/-! ### Claim theorems -/

/-- Claim C1, counterexample: in a store already holding `MAX_PROJECTS = 1`
projects, `create_project` with a name equal to an existing live project
fails with `DuplicateProjectError`, not `ProjectLimitError` — the
in-memory store makes the uniqueness check before the capacity check, so
the claim as stated is false. -/
theorem claim1_counterexample :
    (Storage.projects ⟨[⟨"A", "", []⟩]⟩).length = 1 ∧
    TodoService.create_project 1 ⟨[⟨"A", "", []⟩]⟩ "A" "" = .error .duplicateProject ∧
    TodoService.create_project 1 ⟨[⟨"A", "", []⟩]⟩ "A" "" ≠ .error .projectLimit := by
  decide

/-- Claim C1, amended: in every state holding exactly `MAX_PROJECTS` live
projects, `create_project` always fails (and the store, returned only on
success, is unchanged); it fails with `ProjectLimitError` whenever the
name and description validate and the name is not already used — the
in-memory store checks uniqueness before capacity, while the
database-backed `ProjectRepository.create` checks capacity before
uniqueness and therefore fails with `ProjectLimitError` whenever the
fields validate, duplicate or not. -/
theorem claim1_full_store (maxProjects : Nat) (s : Storage)
    (name description : String)
    (hfull : s.projects.length = maxProjects) :
    (∃ e, TodoService.create_project maxProjects s name description = .error e) ∧
    (validate_project_name name = .ok () →
     validate_project_description description = .ok () →
     validate_unique_project_name name s.projects = .ok () →
     TodoService.create_project maxProjects s name description = .error .projectLimit) ∧
    (∀ (db : List DBProject) (newId : Nat), db.length = maxProjects →
     validate_project_name name = .ok () →
     validate_project_description description = .ok () →
     repo_create_project maxProjects db newId name description = .error .projectLimit) := by
  refine ⟨?_, ?_, ?_⟩
  · unfold TodoService.create_project add_project
    dsimp only
    cases h1 : validate_project_name name
    case error e => exact ⟨e, rfl⟩
    case ok u =>
      cases h2 : validate_project_description description
      case error e => exact ⟨e, rfl⟩
      case ok v =>
        cases h3 : validate_unique_project_name name s.projects
        case error e => exact ⟨e, rfl⟩
        case ok w =>
          refine ⟨.projectLimit, ?_⟩
          rw [if_pos (by omega)]
  · intro h1 h2 h3
    unfold TodoService.create_project add_project
    dsimp only
    rw [h1, h2, h3, if_pos (by omega)]
  · intro db newId hlen h1 h2
    unfold repo_create_project
    rw [h1, h2, if_pos (by omega)]

/-- Claim C1, witness: a full one-project store rejects a fresh valid name
with `ProjectLimitError`, in both the in-memory and the repository
variants. -/
theorem claim1_witness :
    TodoService.create_project 1 ⟨[⟨"A", "", []⟩]⟩ "B" "" = .error .projectLimit ∧
    repo_create_project 1 [⟨0, "A", ""⟩] 1 "B" "" = .error .projectLimit :=
  ⟨(claim1_full_store 1 ⟨[⟨"A", "", []⟩]⟩ "B" "" (by decide)).2.1
      (by decide) (by decide) (by decide),
   (claim1_full_store 1 ⟨[⟨"A", "", []⟩]⟩ "B" "" (by decide)).2.2
      [⟨0, "A", ""⟩] 1 (by decide) (by decide) (by decide)⟩

/-- Claim C2: `TodoService.edit_project` performs no duplicate-name check
at all: renaming project 1 to the name of live project 0 succeeds and
leaves the store with two live projects both named `"A"`, contradicting
the documented `DuplicateProjectError` contract (`todo_service.py`
docstring) that the database-backed `ProjectRepository.update` does
implement. -/
theorem claim2_edit_applies_duplicate_name :
    TodoService.edit_project ⟨[⟨"A", "", []⟩, ⟨"B", "", []⟩]⟩ 1 "A" "x"
      = .ok (⟨"A", "x", []⟩, ⟨[⟨"A", "", []⟩, ⟨"A", "x", []⟩]⟩) ∧
    (⟨[⟨"A", "", []⟩, ⟨"A", "x", []⟩]⟩ : Storage).projects.map Project.name
      = ["A", "A"] := by
  decide

/-- Claim C3: `TodoService.edit_task` performs no validation, no
normalization and no duplicate check: renaming sibling task 1 to the name
of task 0 while supplying the invalid status token `"bogus"` succeeds,
stores the raw status, and leaves two sibling tasks named `"T1"` — even
though the validators used at creation reject both the status and the
duplicate name. -/
theorem claim3_edit_task_unvalidated :
    TodoService.edit_task
        ⟨[⟨"P", "", [⟨"T1", "", "todo", none⟩, ⟨"T2", "", "todo", none⟩]⟩]⟩
        0 1 "T1" "" "bogus" none
      = .ok (⟨"T1", "", "bogus", none⟩,
             ⟨[⟨"P", "", [⟨"T1", "", "todo", none⟩, ⟨"T1", "", "bogus", none⟩]⟩]⟩) ∧
    validate_task_status "bogus" = .error .validation ∧
    validate_unique_task_name "T1" [⟨"T1", "", "todo", none⟩] = .error .duplicateTask := by
  decide

/-- Claim C4, counterexample: refs are positional indices, so after
deleting project 0 of two, `list_tasks` with the same ref 0 does not fail
with `ProjectNotFoundError` — it succeeds and returns the surviving
project's tasks. -/
theorem claim4_counterexample :
    TodoService.delete_project_service
        ⟨[⟨"A", "", [⟨"t", "", "todo", none⟩]⟩, ⟨"B", "", [⟨"u", "", "todo", none⟩]⟩]⟩ 0
      = .ok ⟨[⟨"B", "", [⟨"u", "", "todo", none⟩]⟩]⟩ ∧
    TodoService.list_tasks_service ⟨[⟨"B", "", [⟨"u", "", "todo", none⟩]⟩]⟩ 0
      = .ok [⟨"u", "", "todo", none⟩] := by
  decide

/-- Claim C4, amended: a successful `delete_project` removes exactly the
addressed project together with all its tasks; afterwards `list_tasks`
fails with `ProjectNotFoundError` exactly for refs outside the shrunken
range — in particular for the old ref when it was the highest index — and
every listing that still succeeds returns the task list of a surviving
project, so none of the deleted project's tasks remain reachable. -/
theorem claim4_cascade (s : Storage) (i : Int) (s' : Storage)
    (h : TodoService.delete_project_service s i = .ok s') :
    s'.projects = s.projects.eraseIdx i.toNat ∧
    s'.projects.length + 1 = s.projects.length ∧
    (∀ j : Int, TodoService.list_tasks_service s' j = .error .projectNotFound ↔
        ¬ (0 ≤ j ∧ j < (s'.projects.length : Int))) ∧
    (i = (s.projects.length : Int) - 1 →
        TodoService.list_tasks_service s' i = .error .projectNotFound) ∧
    (∀ (j : Int) (ts : List Task), TodoService.list_tasks_service s' j = .ok ts →
        ∃ p ∈ s'.projects, p.tasks = ts) := by
  unfold TodoService.delete_project_service delete_project at h
  cases hg : get_project s i with
  | none => rw [hg] at h; cases h
  | some p =>
    rw [hg] at h
    obtain ⟨h0, hlt, _⟩ := get_project_eq_some hg
    have hs' : s'.projects = s.projects.eraseIdx i.toNat := by
      cases h; rfl
    have hlen : s'.projects.length + 1 = s.projects.length := by
      rw [hs', List.length_eraseIdx_of_lt (by omega)]
      omega
    refine ⟨hs', hlen, ?_, ?_, ?_⟩
    · intro j
      rw [show TodoService.list_tasks_service s' j = list_tasks s' j from rfl,
          list_tasks_error_iff, get_project_eq_none]
    · intro hi
      rw [show TodoService.list_tasks_service s' i = list_tasks s' i from rfl,
          list_tasks_error_iff, get_project_eq_none]
      omega
    · intro j ts hts
      unfold TodoService.list_tasks_service list_tasks at hts
      cases hg2 : get_project s' j with
      | none => rw [hg2] at hts; cases hts
      | some q =>
        rw [hg2] at hts
        cases hts
        obtain ⟨_, _, hget⟩ := get_project_eq_some hg2
        rw [List.get?_eq_getElem?] at hget
        exact ⟨q, List.getElem?_mem hget, rfl⟩

/-- Claim C4, witness: deleting the highest-indexed project makes a
subsequent `list_tasks` with the same ref fail with
`ProjectNotFoundError`. -/
theorem claim4_witness :
    TodoService.list_tasks_service ⟨[⟨"A", "", [⟨"t", "", "todo", none⟩]⟩]⟩ 1
      = .error .projectNotFound :=
  (claim4_cascade
      ⟨[⟨"A", "", [⟨"t", "", "todo", none⟩]⟩, ⟨"B", "", []⟩]⟩ 1
      ⟨[⟨"A", "", [⟨"t", "", "todo", none⟩]⟩]⟩ (by decide)).2.2.2.1 (by decide)

/-- Claim C5: with all field validations passing, `create_task` fails with
`DuplicateTaskError` exactly when the target project already holds a task
of the identical name; and when the target project holds no such task (and
has capacity), creation succeeds regardless of any other project — in the
resulting store the other project is untouched, so the same task name may
live in two projects simultaneously. -/
theorem claim5_task_uniqueness_scope (today : Date) (maxTasks : Nat) (s : Storage)
    (i : Int) (proj : Project) (name description status : String)
    (deadline : Option String) (st : String)
    (hp : get_project s i = some proj)
    (hn : validate_task_name name = .ok ())
    (hd : validate_task_description description = .ok ())
    (hst : validate_task_status status = .ok st)
    (hdl : validate_task_deadline today deadline = .ok ()) :
    (TodoService.create_task today maxTasks s i name description status deadline
        = .error .duplicateTask
      ↔ proj.tasks.any (fun t => t.name = name) = true) ∧
    (∀ (j : Int) (projB : Project), j ≠ i → get_project s j = some projB →
      proj.tasks.any (fun t => t.name = name) = false →
      proj.tasks.length < maxTasks →
      ∃ s', TodoService.create_task today maxTasks s i name description status deadline
              = .ok (⟨name, description, st, deadline⟩, s') ∧
            get_project s' j = some projB) := by
  unfold TodoService.create_task add_task
  rw [hp]
  dsimp only
  rw [hn, hd, hst, hdl]
  constructor
  · cases hany : proj.tasks.any (fun t => t.name = name) with
    | true =>
      have hu : validate_unique_task_name name proj.tasks = .error .duplicateTask := by
        unfold validate_unique_task_name
        rw [if_pos hany]
      rw [hu]
      simp
    | false =>
      have hu : validate_unique_task_name name proj.tasks = .ok () := by
        unfold validate_unique_task_name
        rw [if_neg (by simp [hany])]
      rw [hu]
      dsimp only
      split <;> simp
  · intro j projB hji hpj hany hcap
    have hu : validate_unique_task_name name proj.tasks = .ok () := by
      unfold validate_unique_task_name
      rw [if_neg (by simp [hany])]
    rw [hu]
    dsimp only
    rw [if_neg (by omega)]
    obtain ⟨hi0, hilt, _⟩ := get_project_eq_some hp
    obtain ⟨hj0, hjlt, hjget⟩ := get_project_eq_some hpj
    refine ⟨_, rfl, ?_⟩
    unfold get_project
    dsimp only
    rw [if_pos (by simp only [List.length_set]; omega)]
    rw [List.get?_eq_getElem?, List.getElem?_set_ne (by omega)]
    rw [List.get?_eq_getElem?] at hjget
    exact hjget

/-- Claim C5, witness: with task `"X"` in project 0, creating `"X"` again
in project 0 fails with `DuplicateTaskError`, while creating `"X"` in
project 1 succeeds and project 0 still holds its own `"X"`. -/
theorem claim5_witness :
    (TodoService.create_task ⟨2026, 10, 12⟩ 50
        ⟨[⟨"P0", "", [⟨"X", "", "todo", none⟩]⟩, ⟨"P1", "", [⟨"Y", "", "todo", none⟩]⟩]⟩
        0 "X" "" "todo" none = .error .duplicateTask) ∧
    (∃ s', TodoService.create_task ⟨2026, 10, 12⟩ 50
        ⟨[⟨"P0", "", [⟨"X", "", "todo", none⟩]⟩, ⟨"P1", "", [⟨"Y", "", "todo", none⟩]⟩]⟩
        1 "X" "" "todo" none
          = .ok (⟨"X", "", "todo", none⟩, s') ∧
        get_project s' 0 = some ⟨"P0", "", [⟨"X", "", "todo", none⟩]⟩) :=
  ⟨(claim5_task_uniqueness_scope ⟨2026, 10, 12⟩ 50 _ 0 ⟨"P0", "", [⟨"X", "", "todo", none⟩]⟩
      "X" "" "todo" none "todo" (by decide) (by decide) (by decide) (by decide)
      (by decide)).1.mpr (by decide),
   (claim5_task_uniqueness_scope ⟨2026, 10, 12⟩ 50 _ 1 ⟨"P1", "", [⟨"Y", "", "todo", none⟩]⟩
      "X" "" "todo" none "todo" (by decide) (by decide) (by decide) (by decide)
      (by decide)).2 0 ⟨"P0", "", [⟨"X", "", "todo", none⟩]⟩ (by decide) (by decide)
      (by decide) (by decide)⟩

/-- Claim C6, counterexample: `validate_task_deadline` returns no value on
success — two valid non-blank inputs that parse to different dates yield
the identical result, so the validator does not return the parsed date as
the claim states. -/
theorem claim6_counterexample :
    validate_task_deadline ⟨2026, 10, 12⟩ (some "2099-01-02") = .ok () ∧
    validate_task_deadline ⟨2026, 10, 12⟩ (some "2098-05-06") = .ok () ∧
    parseDate (pyStrip "2099-01-02".data) = some ⟨2099, 1, 2⟩ ∧
    parseDate (pyStrip "2098-05-06".data) = some ⟨2098, 5, 6⟩ ∧
    (⟨2099, 1, 2⟩ : Date) ≠ ⟨2098, 5, 6⟩ := by
  decide

/-- Claim C6, amended: the deadline validator succeeds on empty, blank or
absent input; on non-blank input it fails with `ValidationError` unless
the stripped input parses as a `YYYY-MM-DD` calendar date, fails with
`ValidationError` when the parsed date is strictly earlier than the
current date, and otherwise succeeds — returning `None` rather than the
parsed date. -/
theorem claim6_deadline_validator (today : Date) (deadline : Option String) :
    ((deadline = none ∨ ∃ s, deadline = some s ∧ isBlank s = true) →
      validate_task_deadline today deadline = .ok ()) ∧
    (∀ s, deadline = some s → isBlank s = false →
      parseDate (pyStrip s.data) = none →
      validate_task_deadline today deadline = .error .validation) ∧
    (∀ s parsed, deadline = some s → isBlank s = false →
      parseDate (pyStrip s.data) = some parsed →
      (dateLt parsed today = true →
        validate_task_deadline today deadline = .error .validation) ∧
      (dateLt parsed today = false →
        validate_task_deadline today deadline = .ok ())) := by
  refine ⟨?_, ?_, ?_⟩
  · rintro (rfl | ⟨s, rfl, hb⟩)
    · rfl
    · unfold validate_task_deadline
      dsimp only
      rw [if_pos hb]
  · rintro s rfl hb hp
    unfold validate_task_deadline
    dsimp only
    rw [if_neg (by simp [hb]), hp]
  · rintro s parsed rfl hb hp
    constructor <;> intro hlt <;> unfold validate_task_deadline <;> dsimp only <;>
      rw [if_neg (by simp [hb]), hp] <;> dsimp only <;> rw [hlt] <;> rfl

/-- Claim C6, witness: absent input succeeds; `"not-a-date"` and the past
date `"2000-01-01"` fail with `ValidationError`; the future date
`"2099-01-02"` succeeds. -/
theorem claim6_witness :
    validate_task_deadline ⟨2026, 10, 12⟩ none = .ok () ∧
    validate_task_deadline ⟨2026, 10, 12⟩ (some "not-a-date") = .error .validation ∧
    validate_task_deadline ⟨2026, 10, 12⟩ (some "2000-01-01") = .error .validation ∧
    validate_task_deadline ⟨2026, 10, 12⟩ (some "2099-01-02") = .ok () :=
  ⟨(claim6_deadline_validator ⟨2026, 10, 12⟩ none).1 (Or.inl rfl),
   (claim6_deadline_validator ⟨2026, 10, 12⟩ (some "not-a-date")).2.1
      "not-a-date" rfl (by decide) (by decide),
   ((claim6_deadline_validator ⟨2026, 10, 12⟩ (some "2000-01-01")).2.2
      "2000-01-01" ⟨2000, 1, 1⟩ rfl (by decide) (by decide)).1 (by decide),
   ((claim6_deadline_validator ⟨2026, 10, 12⟩ (some "2099-01-02")).2.2
      "2099-01-02" ⟨2099, 1, 2⟩ rfl (by decide) (by decide)).2 (by decide)⟩

/-- Claim C7: for every name of 1 to 30 words and description of at most
150 words (and, as the surrounding spec properties require, a name not
already in use and free capacity), `create_project` succeeds, appends the
new project, and the returned project is retrievable unchanged via
`get_project` at its assigned ref — the previous project count. -/
theorem claim7_roundtrip (maxProjects : Nat) (s : Storage)
    (name description : String)
    (h1 : 1 ≤ wordCount name) (h30 : wordCount name ≤ 30)
    (h150 : wordCount description ≤ 150)
    (huniq : s.projects.any (fun p => p.name = name) = false)
    (hcap : s.projects.length < maxProjects) :
    TodoService.create_project maxProjects s name description
      = .ok (⟨name, description, []⟩, ⟨s.projects ++ [⟨name, description, []⟩]⟩) ∧
    get_project ⟨s.projects ++ [⟨name, description, []⟩]⟩ (s.projects.length : Int)
      = some ⟨name, description, []⟩ := by
  have hv1 : validate_project_name name = .ok () := by
    unfold validate_project_name
    rw [isBlank_eq_false_of_wordCount_pos h1]
    simp only [Bool.false_eq_true, if_false]
    rw [if_neg (by omega)]
  have hv2 : validate_project_description description = .ok () := by
    unfold validate_project_description
    rw [if_neg (by omega)]
  have hv3 : validate_unique_project_name name s.projects = .ok () := by
    unfold validate_unique_project_name
    rw [if_neg (by simp [huniq])]
  constructor
  · unfold TodoService.create_project add_project
    dsimp only
    rw [hv1, hv2, hv3]
    dsimp only
    rw [if_neg (by omega)]
  · unfold get_project
    dsimp only
    rw [if_pos (by simp only [List.length_append, List.length_cons,
          List.length_nil]; omega)]
    have : ((s.projects.length : Int)).toNat = s.projects.length := by omega
    rw [this, List.get?_eq_getElem?, List.getElem?_concat_length]

/-- Claim C7, witness: creating `"Website"` with description
`"Launch site"` in an empty store succeeds and round-trips through
`get_project` at ref 0. -/
theorem claim7_witness :
    TodoService.create_project 10 ⟨[]⟩ "Website" "Launch site"
      = .ok (⟨"Website", "Launch site", []⟩, ⟨[⟨"Website", "Launch site", []⟩]⟩) ∧
    get_project ⟨[⟨"Website", "Launch site", []⟩]⟩ 0
      = some ⟨"Website", "Launch site", []⟩ :=
  claim7_roundtrip 10 ⟨[]⟩ "Website" "Launch site"
    (by decide) (by decide) (by decide) (by decide) (by decide)

/-- Claim C8: `TodoService.edit_task_status` stores the supplied status
raw — the invalid token `"blocked"` is accepted without `ValidationError`
and `"DONE"` is stored unnormalized, even though `validate_task_status`
rejects the former and lower-cases the latter; name, description and
deadline are left unchanged. -/
theorem claim8_status_stored_raw :
    TodoService.edit_task_status
        ⟨[⟨"P", "", [⟨"T", "d", "todo", some "2099-01-02"⟩]⟩]⟩ 0 0 "blocked"
      = .ok (⟨"T", "d", "blocked", some "2099-01-02"⟩,
             ⟨[⟨"P", "", [⟨"T", "d", "blocked", some "2099-01-02"⟩]⟩]⟩) ∧
    validate_task_status "blocked" = .error .validation ∧
    TodoService.edit_task_status
        ⟨[⟨"P", "", [⟨"T", "d", "todo", some "2099-01-02"⟩]⟩]⟩ 0 0 "DONE"
      = .ok (⟨"T", "d", "DONE", some "2099-01-02"⟩,
             ⟨[⟨"P", "", [⟨"T", "d", "DONE", some "2099-01-02"⟩]⟩]⟩) ∧
    validate_task_status "DONE" = .ok "done" := by
  decide

/-- Claim C9: when the project ref refers to no project, the store's task
lookup returns `None`, and both `edit_task` and `edit_task_status`
translate that into `TaskNotFoundError` — not `ProjectNotFoundError`. -/
theorem claim9_missing_project (s : Storage) (i j : Int)
    (newName newDescription newStatus : String) (newDeadline : Option String)
    (hp : get_project s i = none) :
    get_task s i j = none ∧
    TodoService.edit_task s i j newName newDescription newStatus newDeadline
      = .error .taskNotFound ∧
    TodoService.edit_task_status s i j newStatus = .error .taskNotFound := by
  have hg : get_task s i j = none := by
    unfold get_task
    rw [hp]
  refine ⟨hg, ?_, ?_⟩
  · unfold TodoService.edit_task
    rw [hg]
  · unfold TodoService.edit_task_status
    rw [hg]

/-- Claim C9, witness: on an empty store, editing task 0 of project 0
fails with `TaskNotFoundError`. -/
theorem claim9_witness :
    get_task ⟨[]⟩ 0 0 = none ∧
    TodoService.edit_task ⟨[]⟩ 0 0 "n" "d" "todo" none = .error .taskNotFound ∧
    TodoService.edit_task_status ⟨[]⟩ 0 0 "done" = .error .taskNotFound :=
  claim9_missing_project ⟨[]⟩ 0 0 "n" "d" "todo" none (by decide)

/-- Claim C10: `get_project` is total over the integers: inside
`0 ≤ i < len` it returns the stored project at that index, and for every
other integer — negative indices included — it returns `None` without
failing. -/
theorem claim10_get_project_total (s : Storage) (i : Int) :
    ((0 ≤ i ∧ i < (s.projects.length : Int)) →
      get_project s i = s.projects.get? i.toNat ∧
      (get_project s i).isSome = true) ∧
    ((i < 0 ∨ (s.projects.length : Int) ≤ i) → get_project s i = none) := by
  constructor
  · intro h
    have hlt : i.toNat < s.projects.length := by omega
    have hv : get_project s i = s.projects.get? i.toNat := by
      unfold get_project
      rw [if_pos h]
    refine ⟨hv, ?_⟩
    rw [hv, List.get?_eq_getElem?]
    have hne : s.projects[i.toNat]? ≠ none := by
      intro hnone
      rw [List.getElem?_eq_none_iff] at hnone
      omega
    exact Option.ne_none_iff_isSome.mp hne
  · intro h
    unfold get_project
    rw [if_neg (by omega)]

/-- Claim C10, witness: on a one-project store, index 0 returns the stored
project, while index -1 and index 1 return `None`. -/
theorem claim10_witness :
    (get_project ⟨[⟨"A", "", []⟩]⟩ 0 = ([⟨"A", "", []⟩] : List Project).get? 0 ∧
     (get_project ⟨[⟨"A", "", []⟩]⟩ 0).isSome = true) ∧
    get_project ⟨[⟨"A", "", []⟩]⟩ (-1) = none ∧
    get_project ⟨[⟨"A", "", []⟩]⟩ 1 = none :=
  ⟨(claim10_get_project_total ⟨[⟨"A", "", []⟩]⟩ 0).1 ⟨by decide, by decide⟩,
   (claim10_get_project_total ⟨[⟨"A", "", []⟩]⟩ (-1)).2 (Or.inl (by decide)),
   (claim10_get_project_total ⟨[⟨"A", "", []⟩]⟩ 1).2 (Or.inr (by decide))⟩

end Todo

